import Mathlib

/-!
Shallow embedding of `src/monitor.py`: a terminal dashboard that samples CPU,
memory, swap, network/disk I/O and the process table, renders four panels plus
a header, and appends a WARNING line to `sistema_alertas.log` whenever the
aggregate CPU percentage exceeds the configured threshold.

Numeric readings (percentages, byte counts) are modelled as rationals; the
threshold is an integer (`argparse` declares `--threshold` with `type=int`).
The Python fixed-precision float rendering (`:.2f`, `:.1f`, `repr`) is
abstracted as `toString`; no property below depends on the digit strings.
-/

namespace Monitor

/-- Severity levels of the logging facility.  `logging.basicConfig` in the
source sets `level=logging.WARNING`. -/
inductive Severity where
  | debug
  | info
  | warning
  | error
  | critical
deriving DecidableEq, Repr

/-- The level configured by `logging.basicConfig(level=logging.WARNING)`. -/
def configuredLogLevel : Severity := Severity.warning

/-- One log emission: a severity and the message string. -/
structure LogRecord where
  severity : Severity
  message : String
deriving DecidableEq, Repr

/-- The log file name hard-coded in `logging.basicConfig` and in the header
and shutdown strings. -/
def logPath : String := "sistema_alertas.log"

/-- The line layout from `format=\x27%(asctime)s - %(message)s\x27`:
timestamp, the separator " - ", then the message. -/
def formatLogLine (asctime message : String) : String :=
  asctime ++ " - " ++ message

/-- One entry of the process snapshot, from
`psutil.process_iter([\x27pid\x27, \x27name\x27, \x27cpu_percent\x27, \x27memory_percent\x27])`.
`cpu_percent` and `memory_percent` may be unavailable (`None`). -/
structure ProcInfo where
  pid : Int
  name : String
  cpu_percent : Option ℚ
  memory_percent : Option ℚ
deriving DecidableEq, Repr

/-- The sort key of `sorted(procs, key=lambda p: p[\x27cpu_percent\x27] or 0, ...)`:
a missing CPU percentage counts as 0. -/
def sortKey (p : ProcInfo) : ℚ := p.cpu_percent.getD 0

/-- Comparison used to model `sorted(..., key=..., reverse=True)` on the
index-decorated snapshot.  The Python sort is stable, and `reverse=True` keeps
elements with equal keys in their original order, so the result coincides
with sorting pairs (original index, entry) by descending key, ties by
ascending index. -/
def keyLE (a b : Nat × ProcInfo) : Bool :=
  decide (sortKey b.2 < sortKey a.2 ∨ (sortKey a.2 = sortKey b.2 ∧ a.1 ≤ b.1))

/-- `sorted(procs, key=lambda p: p[\x27cpu_percent\x27] or 0, reverse=True)[:top_n]`,
keeping each entry paired with its original snapshot index. -/
def rankEnum (procs : List ProcInfo) (top_n : Nat) : List (Nat × ProcInfo) :=
  (procs.enum.mergeSort keyLE).take top_n

/-- The ranked top-N process list shown in the process panel. -/
def rank (procs : List ProcInfo) (top_n : Nat) : List ProcInfo :=
  (rankEnum procs top_n).map Prod.snd

/-- Python `int()` applied to a rational: truncation toward zero, as in
`int(core_usage / 5)`. -/
def pyInt (q : ℚ) : Int :=
  if 0 ≤ q then q.floor else -((-q).floor)

/-- The per-core bar color:
`"green" if core_usage < 50 else "yellow" if core_usage < CPU_THRESHOLD else "red"`. -/
def perCoreColor (usage : ℚ) (threshold : Int) : String :=
  if usage < 50 then "green"
  else if usage < (threshold : ℚ) then "yellow"
  else "red"

/-- The message of the warning emitted when the threshold is exceeded:
`f"ALERTA CPU: Uso total {cpu_total}% superó el umbral de {CPU_THRESHOLD}%"`. -/
def alertMessage (cpu_total : ℚ) (threshold : Int) : String :=
  "ALERTA CPU: Uso total " ++ toString cpu_total ++
    "% superó el umbral de " ++ toString threshold ++ "%"

/-- The alert decision inside `get_cpu_panel`: when `cpu_total > CPU_THRESHOLD`
one `logging.warning(...)` record is emitted, otherwise nothing. -/
def evaluateAlert (cpu_total : ℚ) (threshold : Int) : Option LogRecord :=
  if cpu_total > (threshold : ℚ) then
    some ⟨Severity.warning, alertMessage cpu_total threshold⟩
  else none

/-- The records appended to the log over a run of ticks, one tick per entry of
`cpus` (the observed `cpu_total` of that tick).  The evaluation keeps no state
between ticks: each element contributes independently. -/
def alertsOverTicks (cpus : List ℚ) (threshold : Int) : List LogRecord :=
  cpus.filterMap fun c => evaluateAlert c threshold

/-- A renderable panel: title, border/style tag, and tabular content. -/
structure PanelView where
  title : String
  border : String
  rows : List (List String)
deriving DecidableEq, Repr

/-- One row of the CPU table:
`table.add_row(f"Core {i}", f"{core_usage}% {bar}")` with
`bar = f"[{color}]{\x27|\x27 * int(core_usage / 5)}[/]"`. -/
def cpuCoreRow (i : Nat) (core_usage : ℚ) (threshold : Int) : List String :=
  let color := perCoreColor core_usage threshold
  let bar := String.mk (List.replicate (pyInt (core_usage / 5)).toNat '|')
  ["Core " ++ toString i,
   toString core_usage ++ "% [" ++ color ++ "]" ++ bar ++ "[/]"]

/-- `get_cpu_panel`: the rendered CPU panel together with the optional log
record emitted while building it.  Border `"blue"`, switched to
`"bright_red"` when `cpu_total > CPU_THRESHOLD`; the same condition guards
the `logging.warning` call. -/
def get_cpu_panel (cpu_total : ℚ) (cpu_per_core : List ℚ) (threshold : Int) :
    PanelView × Option LogRecord :=
  let border := if cpu_total > (threshold : ℚ) then "bright_red" else "blue"
  let alert := evaluateAlert cpu_total threshold
  let rows := cpu_per_core.enum.map fun p => cpuCoreRow p.1 p.2 threshold
  (⟨"CPU Total: " ++ toString cpu_total ++ "% (Umbral: " ++
      toString threshold ++ "%)",
    border, rows⟩, alert)

/-- The fields of `psutil.virtual_memory()` that the source reads. -/
structure MemStats where
  total : ℚ
  used : ℚ
  percent : ℚ
deriving DecidableEq, Repr

/-- The full snapshot taken in one tick of the metrics the source reads. -/
structure Sample where
  cpu_total : ℚ
  cpu_per_core : List ℚ
  mem : MemStats
  swap_used : ℚ
  net_bytes_sent : ℚ
  net_bytes_recv : ℚ
  disk_read_count : Nat
  disk_write_count : Nat
  processes : List ProcInfo
deriving DecidableEq, Repr

/-- `1024 ** 3`, the byte-to-GB divisor of the source. -/
def gb : ℚ := 1024 ^ 3

/-- `1024 ** 2`, the byte-to-MB divisor of the source. -/
def mb : ℚ := 1024 ^ 2

/-- `get_memory_panel`: RAM/swap rows; the border style is the literal
`"green"`, with no dependence on the sampled values or the threshold. -/
def get_memory_panel (s : Sample) : PanelView :=
  ⟨"Memoria (RAM + Swap)", "green",
   [["RAM Total", toString (s.mem.total / gb) ++ " GB"],
    ["RAM Usada", toString (s.mem.used / gb) ++ " GB"],
    ["RAM %", toString s.mem.percent ++ "%"],
    ["SWAP Usada", toString (s.swap_used / gb) ++ " GB"]]⟩

/-- `get_network_disk_panel`: cumulative network counters in MB and raw disk
operation counts; border `"cyan"`. -/
def get_network_disk_panel (s : Sample) : PanelView :=
  ⟨"I/O Sistema", "cyan",
   [["Red Enviado", toString (s.net_bytes_sent / mb) ++ " MB"],
    ["Red Recibido", toString (s.net_bytes_recv / mb) ++ " MB"],
    ["Disco Lecturas", toString s.disk_read_count],
    ["Disco Escrituras", toString s.disk_write_count]]⟩

/-- One row of the process table: pid, name, CPU% and MEM% with a missing
value rendered as 0. -/
def procRow (p : ProcInfo) : List String :=
  [toString p.pid, p.name,
   toString (p.cpu_percent.getD 0) ++ "%",
   toString (p.memory_percent.getD 0) ++ "%"]

/-- `get_processes_panel`: the ranked top-N rows; border `"white"`. -/
def get_processes_panel (procs : List ProcInfo) (top_n : Nat) : PanelView :=
  ⟨"Top " ++ toString top_n ++ " Procesos", "white",
   (rank procs top_n).map procRow⟩

/-- The composed layout: header row plus the four panels (the right column
holds the process panel alone). -/
structure LayoutView where
  header : PanelView
  cpu : PanelView
  memory : PanelView
  io : PanelView
  processes : PanelView
deriving DecidableEq, Repr

/-- The header panel of `update_layout`; `clock` is the formatted current
time `datetime.now().strftime("%H:%M:%S")`. -/
def headerPanel (clock : String) : PanelView :=
  ⟨"", "bold white on blue",
   [["Monitor Avanzado | Log activo: " ++ logPath ++ " | Hora: " ++ clock]]⟩

/-- `update_layout`: builds the header and the four panels for one tick and
returns them together with the log records emitted during the tick.
`get_processes_panel` is called with its default `top_n=10`. -/
def update_layout (s : Sample) (threshold : Int) (clock : String) :
    LayoutView × List LogRecord :=
  let cpu := get_cpu_panel s.cpu_total s.cpu_per_core threshold
  (⟨headerPanel clock, cpu.1, get_memory_panel s, get_network_disk_panel s,
    get_processes_panel s.processes 10⟩,
   cpu.2.toList)

/-- What one iteration of the main loop can do, seen from the `try` block:
complete normally, raise `KeyboardInterrupt`, or raise a metrics error. -/
inductive TickOutcome where
  | ok
  | keyboardInterrupt
  | metricsError
deriving DecidableEq, Repr

/-- How a run of the main block ends. -/
inductive ExitKind where
  | stillRunning
  | cleanExit
  | exceptionOut
deriving DecidableEq, Repr

/-- Observable outcome of the `__main__` block: whether the `Live` screen
resource was released (its context manager runs on every exit from the
`with` body, normal or exceptional), what the final `print` produced, and
the process exit code (`some 0` on the clean path, `none` when an exception
propagates). -/
structure RunResult where
  kind : ExitKind
  liveReleased : Bool
  printed : Option String
  exitCode : Option Nat
deriving DecidableEq, Repr

/-- The shutdown line:
`print("Monitor finalizado. Revise \x27sistema_alertas.log\x27 para ver incidencias.")`. -/
def shutdownMessage : String :=
  "Monitor finalizado. Revise \x27" ++ logPath ++ "\x27 para ver incidencias."

/-- The `__main__` block over an initial segment of tick outcomes: the `while True`
loop continues on ordinary ticks; `KeyboardInterrupt` is caught by the
`except` clause, which prints the shutdown message after the `with Live`
is released, and the interpreter exits with code 0; any other exception
propagates uncaught (the `with` still releases the screen) and no shutdown
message is printed. -/
def runMain : List TickOutcome → RunResult
  | [] => ⟨ExitKind.stillRunning, false, none, none⟩
  | TickOutcome.ok :: rest => runMain rest
  | TickOutcome.keyboardInterrupt :: _ =>
      ⟨ExitKind.cleanExit, true, some shutdownMessage, some 0⟩
  | TickOutcome.metricsError :: _ =>
      ⟨ExitKind.exceptionOut, true, none, none⟩

/-- The first tick outcome that is not an ordinary completed iteration. -/
def firstStop (ticks : List TickOutcome) : Option TickOutcome :=
  ticks.find? fun t => !(t == TickOutcome.ok)

end Monitor

namespace Monitor

theorem keyLE_trans (a b c : Nat × ProcInfo) :
    keyLE a b → keyLE b c → keyLE a c := by
  simp only [keyLE, decide_eq_true_eq]
  rintro (hab | ⟨hab, iab⟩) (hbc | ⟨hbc, ibc⟩)
  · exact Or.inl (lt_trans hbc hab)
  · exact Or.inl (hbc ▸ hab)
  · exact Or.inl (hab ▸ hbc)
  · exact Or.inr ⟨hab.trans hbc, le_trans iab ibc⟩

theorem keyLE_total (a b : Nat × ProcInfo) :
    keyLE a b || keyLE b a := by
  simp only [keyLE, Bool.or_eq_true, decide_eq_true_eq]
  rcases lt_trichotomy (sortKey a.2) (sortKey b.2) with h | h | h
  · exact Or.inr (Or.inl h)
  · rcases Nat.le_total a.1 b.1 with hi | hi
    · exact Or.inl (Or.inr ⟨h, hi⟩)
    · exact Or.inr (Or.inr ⟨h.symm, hi⟩)
  · exact Or.inl (Or.inl h)

/-- The sorted, decorated list is pairwise ordered by `keyLE` and its index
tags are pairwise distinct. -/
theorem rankEnum_pairwise (procs : List ProcInfo) (top_n : Nat) :
    (rankEnum procs top_n).Pairwise
      (fun a b => keyLE a b ∧ a.1 ≠ b.1) := by
  have hsorted : (procs.enum.mergeSort keyLE).Pairwise (fun a b => keyLE a b) :=
    List.sorted_mergeSort keyLE_trans keyLE_total procs.enum
  have hperm : List.Perm (procs.enum.mergeSort keyLE) procs.enum :=
    List.mergeSort_perm procs.enum keyLE
  have hnodupfst : ((procs.enum.mergeSort keyLE).map Prod.fst).Nodup := by
    have : List.Perm ((procs.enum.mergeSort keyLE).map Prod.fst)
        (procs.enum.map Prod.fst) := hperm.map Prod.fst
    rw [List.enum_map_fst] at this
    exact this.symm.nodup (List.nodup_range procs.length)
  have hne : (procs.enum.mergeSort keyLE).Pairwise (fun a b => a.1 ≠ b.1) :=
    List.pairwise_map.mp hnodupfst
  exact ((hsorted.and hne).sublist (List.take_sublist top_n _))

theorem length_alertsOverTicks (cpus : List ℚ) (t : Int) :
    (alertsOverTicks cpus t).length =
      (cpus.filter fun c => decide ((t : ℚ) < c)).length := by
  induction cpus with
  | nil => rfl
  | cons c rest ih =>
    by_cases h : (t : ℚ) < c <;>
      simp [alertsOverTicks, List.filterMap_cons, List.filter_cons,
        evaluateAlert, h] <;>
      simpa [alertsOverTicks] using ih

theorem alertsOverTicks_severity (cpus : List ℚ) (t : Int) :
    ∀ r ∈ alertsOverTicks cpus t, r.severity = Severity.warning := by
  intro r hr
  simp only [alertsOverTicks, List.mem_filterMap] at hr
  obtain ⟨c, _, hc⟩ := hr
  unfold evaluateAlert at hc
  split_ifs at hc
  exact (Option.some_inj.mp hc).symm ▸ rfl

/-- C1: the alert evaluation is a pure function of the current `cpu_total` and
the threshold: it emits a record exactly when `cpu_total > threshold` (strict;
equality never alerts), and over any run of ticks one record is appended for
every tick whose `cpu_total` exceeds the threshold — no deduplication. -/
theorem alert_strict_and_stateless (cpu : ℚ) (t : Int) (cpus : List ℚ) :
    ((evaluateAlert cpu t).isSome ↔ (t : ℚ) < cpu) ∧
    (evaluateAlert cpu t = none ↔ cpu ≤ (t : ℚ)) ∧
    (alertsOverTicks cpus t).length =
      (cpus.filter fun c => decide ((t : ℚ) < c)).length := by
  refine ⟨?_, ?_, length_alertsOverTicks cpus t⟩ <;>
    unfold evaluateAlert <;> split_ifs with h <;> simp [h, le_of_not_lt, not_lt]

/-- C2: the ranked process list has length `min top_n (number of processes)`;
ordered by descending sort key (a missing `cpu_percent` counts as 0); ties in
the key keep their original snapshot order (strictly increasing original
indices); and every entry of the decorated ranking is a genuine snapshot
entry at its tagged index, with `rank` its projection. -/
theorem rank_length_sorted_stable (procs : List ProcInfo) (top_n : Nat) :
    (rank procs top_n).length = min top_n procs.length ∧
    rank procs top_n = (rankEnum procs top_n).map Prod.snd ∧
    (rankEnum procs top_n).Pairwise (fun a b => sortKey b.2 ≤ sortKey a.2) ∧
    (rankEnum procs top_n).Pairwise
      (fun a b => sortKey a.2 = sortKey b.2 → a.1 < b.1) ∧
    ∀ x ∈ rankEnum procs top_n, procs[x.1]? = some x.2 := by
  have h := rankEnum_pairwise procs top_n
  refine ⟨?_, rfl, ?_, ?_, ?_⟩
  · simp [rank, rankEnum]
  · refine h.imp ?_
    intro a b hab
    have hk := hab.1
    simp only [keyLE, decide_eq_true_eq] at hk
    rcases hk with hlt | ⟨heq, _⟩
    · exact le_of_lt hlt
    · exact le_of_eq heq.symm
  · refine h.imp ?_
    intro a b hab heq
    have hk := hab.1
    simp only [keyLE, decide_eq_true_eq] at hk
    rcases hk with hlt | ⟨_, hle⟩
    · exact absurd hlt (heq ▸ lt_irrefl _)
    · exact lt_of_le_of_ne hle hab.2
  · intro x hx
    have hx1 : x ∈ procs.enum.mergeSort keyLE :=
      List.mem_of_mem_take hx
    have hx2 : x ∈ procs.enum := List.mem_mergeSort.mp hx1
    obtain ⟨i, p⟩ := x
    exact List.mk_mem_enum_iff_getElem?.mp hx2

/-- A small concrete snapshot used to exercise the ranking: two entries tie
on the key (one via a missing `cpu_percent`). -/
def sampleProcs : List ProcInfo :=
  [⟨10, "idle", some 0, some 1⟩,
   ⟨11, "build", some 42, some 5⟩,
   ⟨12, "unknown", none, none⟩,
   ⟨13, "zero", some 0, some 2⟩]

theorem rank_length_sorted_stable_witness :
    (rank sampleProcs 4).length = min 4 sampleProcs.length ∧
    sampleProcs[(1 : Nat)]? = some ⟨11, "build", some 42, some 5⟩ :=
  ⟨(rank_length_sorted_stable sampleProcs 4).1,
   (rank_length_sorted_stable sampleProcs 4).2.2.2.2
     (1, ⟨11, "build", some 42, some 5⟩)
     (by
        unfold rankEnum
        rw [List.take_of_length_le (by rw [List.length_mergeSort]; decide)]
        exact List.mem_mergeSort.mpr (by decide))⟩

/-- C3, counterexample: the claim requires red whenever `usage ≥ threshold`,
but the code tests `usage < 50` first, so with threshold 40 a usage of 45 is
at or above the threshold yet colored green, not red. -/
theorem percore_color_counterexample :
    (((40 : Int) : ℚ) ≤ 45) ∧
    perCoreColor 45 40 = "green" ∧ perCoreColor 45 40 ≠ "red" := by
  refine ⟨by norm_num, ?_, ?_⟩ <;> decide

/-- C3, amended: for thresholds at least 50 (the default is 85), the per-core
bar color is green exactly below 50, yellow exactly on [50, threshold), and
red exactly at or above the threshold. -/
theorem percore_color_breakpoints (usage : ℚ) (threshold : Int)
    (h : 50 ≤ threshold) :
    (perCoreColor usage threshold = "green" ↔ usage < 50) ∧
    (perCoreColor usage threshold = "yellow" ↔
      50 ≤ usage ∧ usage < (threshold : ℚ)) ∧
    (perCoreColor usage threshold = "red" ↔ (threshold : ℚ) ≤ usage) := by
  have h50 : (50 : ℚ) ≤ (threshold : ℚ) := by exact_mod_cast h
  unfold perCoreColor
  split_ifs with h1 h2
  · refine ⟨iff_of_true rfl h1, iff_of_false (by decide) ?_,
      iff_of_false (by decide) ?_⟩
    · rintro ⟨ha, _⟩
      exact absurd h1 (not_lt.mpr ha)
    · intro ha
      exact absurd h1 (not_lt.mpr (le_trans h50 ha))
  · refine ⟨iff_of_false (by decide) h1,
      iff_of_true rfl ⟨not_lt.mp h1, h2⟩, iff_of_false (by decide) ?_⟩
    intro ha
    exact absurd h2 (not_lt.mpr ha)
  · refine ⟨iff_of_false (by decide) h1, iff_of_false (by decide) ?_,
      iff_of_true rfl (not_lt.mp h2)⟩
    rintro ⟨_, hb⟩
    exact h2 hb

theorem percore_color_breakpoints_witness :
    ((50 : Int) ≤ 85) ∧
    (perCoreColor 85 85 = "red" ↔ ((85 : Int) : ℚ) ≤ 85) :=
  ⟨by decide, (percore_color_breakpoints 85 85 (by decide)).2.2⟩

/-- A concrete sample whose memory usage sits exactly at 85 percent. -/
def memSample85 : Sample :=
  { cpu_total := 0
    cpu_per_core := []
    mem := { total := 8 * gb, used := 34 * gb / 5, percent := 85 }
    swap_used := 0
    net_bytes_sent := 0
    net_bytes_recv := 0
    disk_read_count := 0
    disk_write_count := 0
    processes := [] }

/-- C4, counterexample: at 85 percent of memory used the claim requires a red
border, but `get_memory_panel` hard-codes `border_style="green"`. -/
theorem memory_border_counterexample :
    memSample85.mem.percent = 85 ∧
    (get_memory_panel memSample85).border = "green" ∧
    (get_memory_panel memSample85).border ≠ "red" :=
  ⟨rfl, rfl, by decide⟩

/-- C4, amended: the memory panel border is the constant green for every
sample — it depends neither on the percent of memory used nor on the
configured threshold; no 60/85 breakpoints exist in the code. -/
theorem memory_border_constant_green (s : Sample) :
    (get_memory_panel s).border = "green" :=
  rfl

/-- C5: the CPU panel border is blue exactly when `cpu_total ≤ threshold` and
`"bright_red"` exactly when the alert condition holds; no per-core bar color
ever equals the border alert color, and it is a different string from the
per-core `"red"`. -/
theorem cpu_border_blue_or_alert (cpu : ℚ) (cores : List ℚ) (t : Int) :
    ((get_cpu_panel cpu cores t).1.border = "blue" ↔ cpu ≤ (t : ℚ)) ∧
    ((get_cpu_panel cpu cores t).1.border = "bright_red" ↔ (t : ℚ) < cpu) ∧
    (∀ u : ℚ, perCoreColor u t ≠ "bright_red") ∧
    ("bright_red" ≠ ("red" : String)) := by
  refine ⟨?_, ?_, ?_, by decide⟩
  · unfold get_cpu_panel
    split_ifs with hgt
    · exact iff_of_false
        ((by decide : ¬(("bright_red" : String) = "blue"))) (not_le.mpr hgt)
    · exact iff_of_true rfl (not_lt.mp hgt)
  · unfold get_cpu_panel
    split_ifs with hgt
    · exact iff_of_true rfl hgt
    · exact iff_of_false
        ((by decide : ¬(("blue" : String) = "bright_red"))) hgt
  · intro u
    unfold perCoreColor
    split_ifs <;> decide

theorem cpu_border_blue_or_alert_witness :
    ((get_cpu_panel 90 [] 85).1.border = "bright_red" ↔ ((85 : Int) : ℚ) < 90) ∧
    perCoreColor 60 85 ≠ "bright_red" :=
  ⟨(cpu_border_blue_or_alert 90 [] 85).2.1,
   (cpu_border_blue_or_alert 90 [] 85).2.2.1 60⟩

/-- C10: within one tick, the CPU panel border carries the alert color
exactly when that tick appends an alert record to the log — both come from
the single comparison `cpu_total > CPU_THRESHOLD`. -/
theorem border_alert_agreement (cpu : ℚ) (cores : List ℚ) (t : Int) :
    (((get_cpu_panel cpu cores t).1.border = "bright_red") ↔
      ((get_cpu_panel cpu cores t).2).isSome) ∧
    (get_cpu_panel cpu cores t).2 = evaluateAlert cpu t := by
  refine ⟨?_, rfl⟩
  unfold get_cpu_panel evaluateAlert
  split_ifs with hgt <;> simp

/-- C8: replaying `update_layout` on a fixed sample and threshold yields
identical panels and identical log emissions; the header clock string is the
only input that can vary between the two runs, and with equal clocks the
whole output is identical. -/
theorem layout_two_run_determinism (s : Sample) (t : Int) (c1 c2 : String) :
    (update_layout s t c1).1.cpu = (update_layout s t c2).1.cpu ∧
    (update_layout s t c1).1.memory = (update_layout s t c2).1.memory ∧
    (update_layout s t c1).1.io = (update_layout s t c2).1.io ∧
    (update_layout s t c1).1.processes = (update_layout s t c2).1.processes ∧
    (update_layout s t c1).2 = (update_layout s t c2).2 ∧
    (c1 = c2 → update_layout s t c1 = update_layout s t c2) :=
  ⟨rfl, rfl, rfl, rfl, rfl, fun h => h ▸ rfl⟩

theorem layout_two_run_determinism_witness :
    update_layout memSample85 85 "12:00:00" =
      update_layout memSample85 85 "12:00:00" :=
  (layout_two_run_determinism memSample85 85 "12:00:00" "12:00:00").2.2.2.2.2
    rfl

/-- C9: changing the configured threshold leaves the header and the memory,
I/O and process panels unchanged — only the CPU panel and the alert log read
the threshold. -/
theorem threshold_frame (s : Sample) (clock : String) (t1 t2 : Int) :
    (update_layout s t1 clock).1.memory = (update_layout s t2 clock).1.memory ∧
    (update_layout s t1 clock).1.io = (update_layout s t2 clock).1.io ∧
    (update_layout s t1 clock).1.processes =
      (update_layout s t2 clock).1.processes ∧
    (update_layout s t1 clock).1.header = (update_layout s t2 clock).1.header :=
  ⟨rfl, rfl, rfl, rfl⟩

/-- C6: every alert record carries WARNING severity; its message embeds the
observed `cpu_total` and the configured threshold; a persisted line is the
timestamp, the separator " - ", then the message; and over any run of ticks
the log only ever receives WARNING records. -/
theorem alert_line_warning_and_content (cpu : ℚ) (t : Int) (r : LogRecord)
    (ts : String) (h : evaluateAlert cpu t = some r) :
    r.severity = Severity.warning ∧
    (∃ a b c, r.message = a ++ toString cpu ++ b ++ toString t ++ c) ∧
    formatLogLine ts r.message = ts ++ " - " ++ r.message ∧
    ∀ cpus : List ℚ, ∀ e ∈ alertsOverTicks cpus t,
      e.severity = Severity.warning := by
  have hr : r = ⟨Severity.warning, alertMessage cpu t⟩ := by
    unfold evaluateAlert at h
    split_ifs at h
    exact (Option.some_inj.mp h).symm
  subst hr
  refine ⟨rfl,
    ⟨"ALERTA CPU: Uso total ", "% superó el umbral de ", "%", ?_⟩, rfl,
    fun cpus => alertsOverTicks_severity cpus t⟩
  show alertMessage cpu t = _
  unfold alertMessage
  simp [String.append_assoc]

theorem alert_line_warning_and_content_witness :
    (LogRecord.mk Severity.warning (alertMessage 90 85)).severity =
      Severity.warning ∧
    (∃ a b c, (LogRecord.mk Severity.warning (alertMessage 90 85)).message =
      a ++ toString (90 : ℚ) ++ b ++ toString (85 : Int) ++ c) ∧
    formatLogLine "2025-10-12 00:00:00"
        (LogRecord.mk Severity.warning (alertMessage 90 85)).message =
      "2025-10-12 00:00:00" ++ " - " ++
        (LogRecord.mk Severity.warning (alertMessage 90 85)).message ∧
    ∀ cpus : List ℚ, ∀ e ∈ alertsOverTicks cpus 85,
      e.severity = Severity.warning :=
  alert_line_warning_and_content 90 85
    ⟨Severity.warning, alertMessage 90 85⟩ "2025-10-12 00:00:00" rfl

/-- C7: the loop keeps running while every tick completes; it terminates
normally only on `KeyboardInterrupt`, and on that path the screen resource
is released, the exit code is 0 and the printed shutdown line references the
alert log path; a metrics failure propagates without printing that line
(the `with` block still releases the screen). -/
theorem scheduler_shutdown (ticks : List TickOutcome) :
    ((runMain ticks).kind = ExitKind.cleanExit ↔
      firstStop ticks = some TickOutcome.keyboardInterrupt) ∧
    ((runMain ticks).kind = ExitKind.stillRunning ↔ firstStop ticks = none) ∧
    ((runMain ticks).kind = ExitKind.cleanExit →
      (runMain ticks).liveReleased = true ∧
      (runMain ticks).exitCode = some 0 ∧
      ∃ pre post, (runMain ticks).printed = some (pre ++ logPath ++ post)) ∧
    ((runMain ticks).kind = ExitKind.exceptionOut →
      (runMain ticks).printed = none ∧
      (runMain ticks).liveReleased = true) := by
  induction ticks with
  | nil =>
    refine ⟨by simp [runMain, firstStop], by simp [runMain, firstStop],
      ?_, ?_⟩ <;> intro hk <;> cases hk
  | cons t rest ih =>
    cases t
    · simpa [runMain, firstStop, List.find?] using ih
    · exact ⟨iff_of_true rfl rfl,
        iff_of_false (fun h => ExitKind.noConfusion h)
          (fun h => Option.noConfusion h),
        fun _ => ⟨rfl, rfl,
          ⟨"Monitor finalizado. Revise \x27", "\x27 para ver incidencias.",
            rfl⟩⟩,
        fun hk => ExitKind.noConfusion hk⟩
    · exact ⟨iff_of_false (fun h => ExitKind.noConfusion h)
          (fun h => TickOutcome.noConfusion (Option.some_inj.mp h)),
        iff_of_false (fun h => ExitKind.noConfusion h)
          (fun h => Option.noConfusion h),
        fun hk => ExitKind.noConfusion hk,
        fun _ => ⟨rfl, rfl⟩⟩

theorem scheduler_shutdown_witness :
    (runMain [TickOutcome.ok, TickOutcome.keyboardInterrupt]).liveReleased =
      true ∧
    (runMain [TickOutcome.ok, TickOutcome.keyboardInterrupt]).exitCode =
      some 0 ∧
    ∃ pre post,
      (runMain [TickOutcome.ok, TickOutcome.keyboardInterrupt]).printed =
        some (pre ++ logPath ++ post) :=
  (scheduler_shutdown [TickOutcome.ok, TickOutcome.keyboardInterrupt]).2.2.1
    rfl

end Monitor
